import Mathlib

/-!
# Verification of `build_scripts/deploy_lambdas.py`

A shallow embedding of the Lambda deployment script.  The filesystem is
modelled as a tree of named files with byte contents, kept in the order the
underlying filesystem enumerates entries (`os.walk` visits subdirectories in
that order).  SHA-256 is modelled by the exact byte stream fed to
`sha256_hash.update`: two digests are equal exactly when the streams are
equal (the collision-free idealisation the script relies on).  External
services (S3, DynamoDB, the Lambda API) are modelled by a `World` state plus
an `Oracle` of success flags for the individual calls, mirroring the
`ClientError` handling in the script.
-/

namespace DeployLambdas

/-- A byte of file content. -/
abbrev Byte := Nat

/-- A regular file: its basename and its byte contents. -/
structure FSFile where
  name : String
  content : List Byte
deriving DecidableEq, Repr

/-- A directory tree.  `node files subdirs` holds the regular files of the
directory and its named subdirectories, both in the order the filesystem
enumerates them (the order `os.walk` sees). -/
inductive FSTree where
  | node : List FSFile → List (String × FSTree) → FSTree
deriving Repr

/-- Lexicographic comparison of strings by code point, the order Python's
`sorted` uses on `str`. -/
def strListLe : List Char → List Char → Bool
  | [], _ => true
  | _ :: _, [] => false
  | a :: as, b :: bs =>
      if a.toNat < b.toNat then true
      else if b.toNat < a.toNat then false
      else strListLe as bs

/-- See `strListLe`. -/
def strLe (a b : String) : Bool := strListLe a.data b.data

/-- Insertion sort of a directory's files by name, modelling Python's
`sorted(files)` at line 200 of `deploy_lambdas.py` (file names within one
directory are distinct, so any correct sort gives the same list). -/
def insertByName (f : FSFile) : List FSFile → List FSFile
  | [] => [f]
  | g :: gs => if strLe f.name g.name then f :: g :: gs else g :: insertByName f gs

/-- See `insertByName`. -/
def sortByName : List FSFile → List FSFile
  | [] => []
  | f :: fs => insertByName f (sortByName fs)

mutual

/-- The byte stream `calculate_hash` feeds to `sha256_hash.update`: for each
directory visited by `os.walk` (top-down, the current directory first, then
each subdirectory in enumeration order), the contents of its files sorted by
name.  File names, paths and metadata are never fed to the hash.  Reading in
4096-byte chunks does not change the stream. -/
def FSTree.hashStream : FSTree → List Byte
  | .node files subdirs =>
      ((sortByName files).map FSFile.content).flatten ++
        FSTree.hashStreamDirs subdirs

/-- The recursion of `os.walk` into the subdirectories, in enumeration
order (the `dirs` list is never sorted by the script). -/
def FSTree.hashStreamDirs : List (String × FSTree) → List Byte
  | [] => []
  | (_, t) :: ds => t.hashStream ++ FSTree.hashStreamDirs ds

end

/-- `LambdaDeployer.calculate_hash` (lines 183-209): the SHA-256 digest of
the stream of file contents in walk order, modelled by the stream itself
(equal digests iff equal streams, under collision-freeness).  The
`DeploymentError` raised for a missing directory is outside this model: a
tree value always denotes an existing directory. -/
def calculate_hash (t : FSTree) : List Byte := t.hashStream

/-! ## String helpers

Executable models of the Python string methods the script uses, written
over `String.data` so that concrete runs reduce inside the kernel. -/

/-- Python `str.lower()`. -/
def strLower (s : String) : String := ⟨s.data.map Char.toLower⟩

/-- Python `str.upper()`. -/
def strUpper (s : String) : String := ⟨s.data.map Char.toUpper⟩

/-- The whitespace Python `str.strip()` removes. -/
def isSpaceChar (c : Char) : Bool := c == ' ' || c == '\t' || c == '\n' || c == '\r'

/-- Python `str.strip()`. -/
def strTrim (s : String) : String :=
  ⟨((s.data.dropWhile isSpaceChar).reverse.dropWhile isSpaceChar).reverse⟩

/-- Helper for `splitComma`. -/
def splitCommaAux : List Char → List Char → List String
  | [], acc => [⟨acc.reverse⟩]
  | c :: cs, acc =>
      if c == ',' then ⟨acc.reverse⟩ :: splitCommaAux cs []
      else splitCommaAux cs (c :: acc)

/-- Python `str.split(',')`. -/
def splitComma (s : String) : List String := splitCommaAux s.data []

/-- Python `str.startswith(p)`. -/
def strStartsWith (s p : String) : Bool := p.data.isPrefixOf s.data

/-! ## Configuration (`_get_environment_config`, lines 97-153) -/

/-- The process environment: a finite map of environment variables. -/
structure OSEnv where
  vars : List (String × String)

/-- `os.environ.get(k)`. -/
def OSEnv.get? (e : OSEnv) (k : String) : Option String :=
  (e.vars.find? (fun p => p.1 == k)).map (·.2)

/-- `os.environ.get(k, d)`. -/
def OSEnv.getD (e : OSEnv) (k d : String) : String :=
  (e.get? k).getD d

/-- `k in os.environ`. -/
def OSEnv.hasVar (e : OSEnv) (k : String) : Bool :=
  (e.get? k).isSome

/-- The configuration held by a constructed `LambdaDeployer`
(fields set in `__init__`, lines 55-60). -/
structure Config where
  environment : String
  s3_bucket : String
  is_rollback : Bool
  specific_lambdas : List String
  commit_id : String
  branch_name : String
  developer : String
deriving DecidableEq, Repr

/-- Result of `_get_environment_config`: either the selected configuration
tuple or a raised `ConfigurationError`. -/
inductive ConfigResult where
  | ok (environment s3_bucket : String) (is_rollback : Bool) (specific : List String)
  | error (msg : String)
deriving DecidableEq, Repr

/-- `LambdaDeployer._get_environment_config` (lines 97-153). -/
def get_environment_config (e : OSEnv) : ConfigResult :=
  let is_rollback := strLower (e.getD "IS_ROLLBACK" "false") == "true"
  let specific :=
    match e.get? "SPECIFIC_LAMBDAS" with
    | some s => if s == "" then [] else splitComma s
    | none => []
  let environment :=
    if !is_rollback then
      let branch := e.getD "BRANCH_NAME" ""
      if strStartsWith branch "feature/" then "dev"
      else if branch == "qa" then "qa"
      else if branch == "main" then "prod"
      else "dev"
    else e.getD "ENVIRONMENT" ""
  if !(e.hasVar ("S3_BUCKET_" ++ strUpper environment)) then
    .error ("Missing required environment variables: S3_BUCKET_" ++ strUpper environment)
  else if environment != "dev" && environment != "qa" && environment != "prod" then
    .error ("Invalid environment: " ++ environment)
  else
    let s3_bucket := strTrim (e.getD ("S3_BUCKET_" ++ strUpper environment) "")
    if s3_bucket == "" then
      .error ("S3 bucket not configured for environment: " ++ environment)
    else
      .ok environment s3_bucket is_rollback specific

/-- The `Config` a successfully constructed deployer carries
(`__init__`, lines 55-60). -/
def mkConfig (e : OSEnv) (environment s3_bucket : String) (is_rollback : Bool)
    (specific : List String) : Config :=
  { environment := environment
    s3_bucket := s3_bucket
    is_rollback := is_rollback
    specific_lambdas := specific
    commit_id := strTrim (e.getD "COMMIT_SHA" "unknown")
    branch_name := strTrim (e.getD "BRANCH_NAME" "dev")
    developer := strTrim (e.getD "DEVELOPER" "unknown") }

/-! ## External state -/

/-- One DynamoDB item of the `lambda-deployments` table
(`record_deployment`, lines 320-332).  The timestamp strings are derived
from a logical clock carried by the `World`. -/
structure DeploymentRecord where
  deployment_id : String
  function_name : String
  developer : String
  environment : String
  code_hash : List Byte
  deployed_at : String
  commit_id : String
  branch_name : String
deriving DecidableEq, Repr

/-- An S3 object key of the form `{function_name}/{hash}/function.zip`
(lines 397 and 417).  The rendering is injective in the pair (a basename
contains no slash and a hex digest contains no slash), so the key is kept
structurally. -/
structure S3Key where
  fn : String
  hash : List Byte
deriving DecidableEq, Repr

/-- The state of the external services:
DynamoDB ledger (most recent record first), the set of S3 object keys
present in the bucket, the Lambda functions' current code pointers, the
local files under `/tmp`, and a logical clock for record timestamps. -/
structure World where
  ledger : List DeploymentRecord
  s3 : List S3Key
  targets : List (String × S3Key)
  tmp : List String
  clock : Nat
deriving DecidableEq, Repr

/-- Success flags for the individual external calls a single
`process_lambda` invocation makes; `false` models the corresponding
`ClientError` (or `IOError` for the zip and `OSError` for the removal). -/
structure Oracle where
  queryLatestOk : Bool
  queryPrevOk : Bool
  createZipOk : Bool
  uploadOk : Bool
  updateOk : Bool
  recordOk : Bool
  removeOk : Bool
deriving DecidableEq, Repr

/-- An oracle under which every external call succeeds. -/
def allOk : Oracle :=
  ⟨true, true, true, true, true, true, true⟩

/-- A discovered Lambda unit: `function_name = basename(lambda_dir)`,
`domain = basename(dirname(lambda_dir))` (lines 379-380), and the source
tree under `lambda_dir`. -/
structure FunctionUnit where
  name : String
  domain : String
  tree : FSTree

/-- The observable external calls of one unit's processing, in program
order, each carrying the success of the call. -/
inductive Effect where
  | queryLatest (fn env : String) (ok : Bool)
  | queryPrevious (fn env : String) (ok : Bool)
  | createZip (path : String) (ok : Bool)
  | upload (key : S3Key) (ok : Bool)
  | updateTarget (name : String) (key : S3Key) (ok : Bool)
  | ledgerAppend (r : DeploymentRecord) (ok : Bool)
  | removeTemp (path : String) (ok : Bool)
deriving DecidableEq, Repr

/-- The records of the ledger for one `(function_name, environment)` pair,
most recent first — what a DynamoDB query with
`ScanIndexForward=False` on that key returns. -/
def ledgerFor (w : World) (fn env : String) : List DeploymentRecord :=
  w.ledger.filter (fun r => r.function_name == fn && r.environment == env)

/-- `LambdaDeployer.get_existing_hash` (lines 339-367): the `code_hash` of
the most recent record for `(fn, environment)`, or the empty string — here
`none` — when no record exists *or the query raised a `ClientError`* (the
`except` clause at lines 365-367 returns `''`). -/
def get_existing_hash (o : Oracle) (w : World) (fn env : String) : Option (List Byte) :=
  if o.queryLatestOk then
    ((ledgerFor w fn env).head?).map (·.code_hash)
  else
    none

/-- `LambdaDeployer.get_previous_deployment` (lines 155-181): query limited
to the two most recent records for `(fn, environment)`, returning the second
if at least two exist; `none` when fewer exist or on `ClientError`
(lines 179-181). -/
def get_previous_deployment (o : Oracle) (w : World) (fn env : String) :
    Option DeploymentRecord :=
  if o.queryPrevOk then
    ((ledgerFor w fn env).take 2)[1]?
  else
    none

/-- Replace-or-insert into the Lambda targets map. -/
def setTarget (ts : List (String × S3Key)) (n : String) (k : S3Key) :
    List (String × S3Key) :=
  (n, k) :: ts.filter (fun p => p.1 != n)

/-- Current code pointer of a Lambda target. -/
def lookupTarget (w : World) (n : String) : Option S3Key :=
  (w.targets.find? (fun p => p.1 == n)).map (·.2)

/-- `LambdaDeployer.upload_to_s3` (lines 261-278): an unconditional
`upload_file` — no existence check precedes it.  An S3 `PUT` to an existing
key silently replaces the object, so the bucket's key set gains the key if
absent and is unchanged if present; a `ClientError` returns `False`. -/
def upload_to_s3 (o : Oracle) (w : World) (key : S3Key) : Bool × World :=
  if o.uploadOk then
    (true, { w with s3 := if key ∈ w.s3 then w.s3 else key :: w.s3 })
  else
    (false, w)

/-- `LambdaDeployer.update_lambda_function` (lines 280-302): repoints the
Lambda named `{fn}_{environment}` at the S3 key. -/
def update_lambda_function (cfg : Config) (o : Oracle) (w : World) (fn : String)
    (key : S3Key) : Bool × World :=
  if o.updateOk then
    (true, { w with targets := setTarget w.targets (fn ++ "_" ++ cfg.environment) key })
  else
    (false, w)

/-- The item `record_deployment` writes (lines 316-331), with the two
timestamp strings rendered from the logical clock. -/
def mkRecord (cfg : Config) (clock : Nat) (fn : String) (h : List Byte) :
    DeploymentRecord :=
  { deployment_id := fn ++ "_" ++ cfg.environment ++ "_" ++ toString clock
    function_name := fn
    developer := cfg.developer
    environment := cfg.environment
    code_hash := h
    deployed_at := "t" ++ toString clock
    commit_id := cfg.commit_id
    branch_name := cfg.branch_name }

/-- `LambdaDeployer.record_deployment` (lines 304-337): `put_item` of a
fresh record, returning `False` on `ClientError`. -/
def record_deployment (cfg : Config) (o : Oracle) (w : World) (fn : String)
    (h : List Byte) : Bool × World :=
  if o.recordOk then
    (true, { w with ledger := mkRecord cfg w.clock fn h :: w.ledger, clock := w.clock + 1 })
  else
    (false, w)

/-- `LambdaDeployer.process_lambda` (lines 369-441), returning the boolean
result, the final external state, and the trace of external calls made.
The `except Exception` at line 439 turns any raised error (for instance the
`DeploymentError` of a failed `create_zip`) into `False`. -/
def process_lambda (cfg : Config) (o : Oracle) (w : World) (u : FunctionUnit) :
    Bool × World × List Effect :=
  let fn := u.name
  -- line 385: skip if rollback with a non-empty allow-list not naming fn
  if cfg.is_rollback && !cfg.specific_lambdas.isEmpty && !cfg.specific_lambdas.contains fn then
    (true, w, [])
  else if cfg.is_rollback then
    let qEvt := Effect.queryPrevious fn cfg.environment o.queryPrevOk
    match get_previous_deployment o w fn cfg.environment with
    | some prev =>
        let key : S3Key := ⟨fn, prev.code_hash⟩
        let upd := update_lambda_function cfg o w fn key
        (upd.1, upd.2,
          [qEvt, .updateTarget (fn ++ "_" ++ cfg.environment) key o.updateOk])
    | none => (false, w, [qEvt])
  else
    let code_hash := calculate_hash u.tree
    let existing := get_existing_hash o w fn cfg.environment
    let qEvt := Effect.queryLatest fn cfg.environment o.queryLatestOk
    if some code_hash != existing then
      let zip_path := "/tmp/" ++ fn ++ ".zip"
      if !o.createZipOk then
        -- create_zip raised DeploymentError, caught at line 439
        (false, w, [qEvt, .createZip zip_path false])
      else
        let w1 := { w with tmp := zip_path :: w.tmp }
        let key : S3Key := ⟨fn, code_hash⟩
        let up := upload_to_s3 o w1 key
        if !up.1 then
          (false, up.2, [qEvt, .createZip zip_path true, .upload key false])
        else
          let upd := update_lambda_function cfg o up.2 fn key
          if !upd.1 then
            (false, upd.2,
              [qEvt, .createZip zip_path true, .upload key true,
               .updateTarget (fn ++ "_" ++ cfg.environment) key false])
          else
            let r := mkRecord cfg upd.2.clock fn code_hash
            let rec' := record_deployment cfg o upd.2 fn code_hash
            if !rec'.1 then
              (false, rec'.2,
                [qEvt, .createZip zip_path true, .upload key true,
                 .updateTarget (fn ++ "_" ++ cfg.environment) key true,
                 .ledgerAppend r false])
            else
              -- cleanup, lines 430-433: OSError is swallowed
              let w5 := if o.removeOk then { rec'.2 with tmp := rec'.2.tmp.erase zip_path }
                        else rec'.2
              (true, w5,
                [qEvt, .createZip zip_path true, .upload key true,
                 .updateTarget (fn ++ "_" ++ cfg.environment) key true,
                 .ledgerAppend r true, .removeTemp zip_path o.removeOk])
    else
      (true, w, [qEvt])

/-- `LambdaDeployer.deploy_all` (lines 443-474), linearised: the thread
pool's interleaving is unspecified, the contract is the aggregate success
and failure counts.  Each unit carries the oracle governing its own
external calls.  Returns (successes, failures, final state). -/
def deploy_all (cfg : Config) (w : World) :
    List (FunctionUnit × Oracle) → Nat × Nat × World
  | [] => (0, 0, w)
  | (u, o) :: rest =>
      let r := process_lambda cfg o w u
      let rec' := deploy_all cfg r.2.1 rest
      if r.1 then (rec'.1 + 1, rec'.2.1, rec'.2.2)
      else (rec'.1, rec'.2.1 + 1, rec'.2.2)

/-! ## `main` (lines 477-502) -/

/-- The outcome of client creation (lines 62-65) and bucket validation
(lines 83-95).  A `ClientError` from `head_bucket` becomes a
`ConfigurationError` whatever its code; any non-`ClientError` exception
escapes `_validate_s3_bucket` uncaught. -/
inductive HeadBucket where
  | ok
  | clientError (code : String)
  | otherException
deriving DecidableEq, Repr

/-- Success flags for deployer construction. -/
structure InitOracle where
  s3ClientOk : Bool
  dynamoClientOk : Bool
  lambdaClientOk : Bool
  headBucket : HeadBucket
deriving DecidableEq, Repr

/-- How `LambdaDeployer()` construction ends. -/
inductive InitResult where
  | ok (cfg : Config)
  | configErr
  | clientErr
  | unexpectedErr
deriving DecidableEq, Repr

/-- `LambdaDeployer.__init__` (lines 55-68): configuration parsing
(`ConfigurationError`), then the three client creations (failure wrapped in
`DeploymentError`, lines 79-81), then bucket validation (`ClientError`
wrapped in `ConfigurationError`; anything else propagates unhandled). -/
def initDeployer (e : OSEnv) (io : InitOracle) : InitResult :=
  match get_environment_config e with
  | .error _ => .configErr
  | .ok environment s3_bucket is_rollback specific =>
      if !io.s3ClientOk || !io.dynamoClientOk || !io.lambdaClientOk then
        .clientErr
      else
        match io.headBucket with
        | .ok => .ok (mkConfig e environment s3_bucket is_rollback specific)
        | .clientError _ => .configErr
        | .otherException => .unexpectedErr

/-- `main` (lines 477-502): `ConfigurationError` exits 1, `DeploymentError`
exits 2, any other exception exits 3; otherwise `deploy_all` runs to
completion — its failure count is only logged (lines 471-474) — and the
process exits 0.  Returns (exit code, successes, failures). -/
def mainRun (e : OSEnv) (io : InitOracle) (units : List (FunctionUnit × Oracle))
    (w : World) : Nat × Nat × Nat :=
  match initDeployer e io with
  | .configErr => (1, 0, 0)
  | .clientErr => (2, 0, 0)
  | .unexpectedErr => (3, 0, 0)
  | .ok cfg =>
      let r := deploy_all cfg w units
      (0, r.1, r.2.1)

end DeployLambdas

namespace DeployLambdas

/-! ## Branch characterisations of `process_lambda` -/

theorem update_lambda_function_fst (cfg : Config) (o : Oracle) (w : World)
    (fn : String) (key : S3Key) :
    (update_lambda_function cfg o w fn key).1 = o.updateOk := by
  cases h : o.updateOk <;> simp [update_lambda_function, h]

/-- Line 385: rollback with a non-empty allow-list not naming the function
returns `True` at once, making no external call. -/
theorem process_lambda_allowlist_skip (cfg : Config) (o : Oracle) (w : World)
    (u : FunctionUnit) (h : cfg.is_rollback = true)
    (h2 : cfg.specific_lambdas ≠ [])
    (h3 : u.name ∉ cfg.specific_lambdas) :
    process_lambda cfg o w u = (true, w, []) := by
  simp [process_lambda, h, h2, h3]

/-- Lines 390-398: rollback with a previous record repoints the target at
that record's artifact. -/
theorem process_lambda_rollback_found (cfg : Config) (o : Oracle) (w : World)
    (u : FunctionUnit) (r : DeploymentRecord) (h : cfg.is_rollback = true)
    (hskip : cfg.specific_lambdas = [] ∨ u.name ∈ cfg.specific_lambdas)
    (hprev : get_previous_deployment o w u.name cfg.environment = some r) :
    process_lambda cfg o w u =
      (o.updateOk, (update_lambda_function cfg o w u.name ⟨u.name, r.code_hash⟩).2,
       [.queryPrevious u.name cfg.environment o.queryPrevOk,
        .updateTarget (u.name ++ "_" ++ cfg.environment) ⟨u.name, r.code_hash⟩ o.updateOk]) := by
  rcases hskip with hs | hs <;>
    simp [process_lambda, h, hs, hprev, update_lambda_function_fst]

/-- Lines 399-401: rollback with no previous record fails the unit without
touching any state. -/
theorem process_lambda_rollback_none (cfg : Config) (o : Oracle) (w : World)
    (u : FunctionUnit) (h : cfg.is_rollback = true)
    (hskip : cfg.specific_lambdas = [] ∨ u.name ∈ cfg.specific_lambdas)
    (hprev : get_previous_deployment o w u.name cfg.environment = none) :
    process_lambda cfg o w u =
      (false, w, [.queryPrevious u.name cfg.environment o.queryPrevOk]) := by
  rcases hskip with hs | hs <;> simp [process_lambda, h, hs, hprev]

/-- Lines 436-438: forward deploy with an unchanged fingerprint returns
`True` and changes nothing. -/
theorem process_lambda_forward_skip (cfg : Config) (o : Oracle) (w : World)
    (u : FunctionUnit) (h : cfg.is_rollback = false)
    (hsame : get_existing_hash o w u.name cfg.environment
      = some (calculate_hash u.tree)) :
    process_lambda cfg o w u =
      (true, w, [.queryLatest u.name cfg.environment o.queryLatestOk]) := by
  simp [process_lambda, h, hsame]

/-- Forward deploy where `create_zip` raises: the `except` at line 439
returns `False`. -/
theorem process_lambda_forward_zipfail (cfg : Config) (o : Oracle) (w : World)
    (u : FunctionUnit) (h : cfg.is_rollback = false)
    (hdiff : some (calculate_hash u.tree)
      ≠ get_existing_hash o w u.name cfg.environment)
    (hzip : o.createZipOk = false) :
    process_lambda cfg o w u =
      (false, w,
       [.queryLatest u.name cfg.environment o.queryLatestOk,
        .createZip ("/tmp/" ++ u.name ++ ".zip") false]) := by
  simp [process_lambda, h, hzip, bne_iff_ne, hdiff]

/-- Lines 418-419: a failed upload returns `False`; the temporary archive
created at line 414 stays on disk. -/
theorem process_lambda_forward_upfail (cfg : Config) (o : Oracle) (w : World)
    (u : FunctionUnit) (h : cfg.is_rollback = false)
    (hdiff : some (calculate_hash u.tree)
      ≠ get_existing_hash o w u.name cfg.environment)
    (hzip : o.createZipOk = true) (hup : o.uploadOk = false) :
    process_lambda cfg o w u =
      (false, { w with tmp := ("/tmp/" ++ u.name ++ ".zip") :: w.tmp },
       [.queryLatest u.name cfg.environment o.queryLatestOk,
        .createZip ("/tmp/" ++ u.name ++ ".zip") true,
        .upload ⟨u.name, calculate_hash u.tree⟩ false]) := by
  simp [process_lambda, upload_to_s3, h, hzip, hup, bne_iff_ne, hdiff]

/-- Lines 422-423: a failed target update returns `False` after the upload;
the archive stays on disk. -/
theorem process_lambda_forward_updfail (cfg : Config) (o : Oracle) (w : World)
    (u : FunctionUnit) (h : cfg.is_rollback = false)
    (hdiff : some (calculate_hash u.tree)
      ≠ get_existing_hash o w u.name cfg.environment)
    (hzip : o.createZipOk = true) (hup : o.uploadOk = true)
    (hupd : o.updateOk = false) :
    process_lambda cfg o w u =
      (false,
       { w with
          tmp := ("/tmp/" ++ u.name ++ ".zip") :: w.tmp
          s3 := if (⟨u.name, calculate_hash u.tree⟩ : S3Key) ∈ w.s3 then w.s3
                else ⟨u.name, calculate_hash u.tree⟩ :: w.s3 },
       [.queryLatest u.name cfg.environment o.queryLatestOk,
        .createZip ("/tmp/" ++ u.name ++ ".zip") true,
        .upload ⟨u.name, calculate_hash u.tree⟩ true,
        .updateTarget (u.name ++ "_" ++ cfg.environment)
          ⟨u.name, calculate_hash u.tree⟩ false]) := by
  simp [process_lambda, upload_to_s3, update_lambda_function, h, hzip, hup,
    hupd, bne_iff_ne, hdiff]

/-- Lines 426-427: a failed ledger append returns `False` after upload and
target update both succeeded; the archive stays on disk. -/
theorem process_lambda_forward_recfail (cfg : Config) (o : Oracle) (w : World)
    (u : FunctionUnit) (h : cfg.is_rollback = false)
    (hdiff : some (calculate_hash u.tree)
      ≠ get_existing_hash o w u.name cfg.environment)
    (hzip : o.createZipOk = true) (hup : o.uploadOk = true)
    (hupd : o.updateOk = true) (hrec : o.recordOk = false) :
    process_lambda cfg o w u =
      (false,
       { w with
          tmp := ("/tmp/" ++ u.name ++ ".zip") :: w.tmp
          s3 := if (⟨u.name, calculate_hash u.tree⟩ : S3Key) ∈ w.s3 then w.s3
                else ⟨u.name, calculate_hash u.tree⟩ :: w.s3
          targets := setTarget w.targets (u.name ++ "_" ++ cfg.environment)
            ⟨u.name, calculate_hash u.tree⟩ },
       [.queryLatest u.name cfg.environment o.queryLatestOk,
        .createZip ("/tmp/" ++ u.name ++ ".zip") true,
        .upload ⟨u.name, calculate_hash u.tree⟩ true,
        .updateTarget (u.name ++ "_" ++ cfg.environment)
          ⟨u.name, calculate_hash u.tree⟩ true,
        .ledgerAppend (mkRecord cfg w.clock u.name (calculate_hash u.tree))
          false]) := by
  simp [process_lambda, upload_to_s3, update_lambda_function,
    record_deployment, h, hzip, hup, hupd, hrec, bne_iff_ne, hdiff]

/-- Lines 409-435, all external calls succeeding: pack, upload, repoint,
append the ledger record, then remove the archive (left behind when the
`os.remove` raises, line 430-433). -/
theorem process_lambda_forward_deploy (cfg : Config) (o : Oracle) (w : World)
    (u : FunctionUnit) (h : cfg.is_rollback = false)
    (hdiff : some (calculate_hash u.tree)
      ≠ get_existing_hash o w u.name cfg.environment)
    (hzip : o.createZipOk = true) (hup : o.uploadOk = true)
    (hupd : o.updateOk = true) (hrec : o.recordOk = true) :
    process_lambda cfg o w u =
      (true,
       { ledger := mkRecord cfg w.clock u.name (calculate_hash u.tree) :: w.ledger
         s3 := if (⟨u.name, calculate_hash u.tree⟩ : S3Key) ∈ w.s3 then w.s3
               else ⟨u.name, calculate_hash u.tree⟩ :: w.s3
         targets := setTarget w.targets (u.name ++ "_" ++ cfg.environment)
           ⟨u.name, calculate_hash u.tree⟩
         tmp := if o.removeOk then w.tmp else ("/tmp/" ++ u.name ++ ".zip") :: w.tmp
         clock := w.clock + 1 },
       [.queryLatest u.name cfg.environment o.queryLatestOk,
        .createZip ("/tmp/" ++ u.name ++ ".zip") true,
        .upload ⟨u.name, calculate_hash u.tree⟩ true,
        .updateTarget (u.name ++ "_" ++ cfg.environment)
          ⟨u.name, calculate_hash u.tree⟩ true,
        .ledgerAppend (mkRecord cfg w.clock u.name (calculate_hash u.tree)) true,
        .removeTemp ("/tmp/" ++ u.name ++ ".zip") o.removeOk]) := by
  cases hrem : o.removeOk <;>
    simp [process_lambda, upload_to_s3, update_lambda_function,
      record_deployment, h, hzip, hup, hupd, hrec, hrem, bne_iff_ne, hdiff,
      List.erase_cons_head]

end DeployLambdas

namespace DeployLambdas

/-! ## Concrete fixtures used by witnesses and counterexamples -/

/-- A one-file source tree. -/
def tA : FSTree := .node [⟨"lambda_function.py", [1, 2, 3]⟩] []

/-- Forward-deploy configuration for environment `dev`. -/
def cfgF : Config := ⟨"dev", "bucket", false, [], "c0", "main", "dev0"⟩

/-- Rollback configuration with no allow-list. -/
def cfgR : Config := ⟨"dev", "bucket", true, [], "c0", "main", "dev0"⟩

/-- Rollback configuration with allow-list `{"f1"}`. -/
def cfgRL : Config := ⟨"dev", "bucket", true, ["f1"], "c0", "main", "dev0"⟩

/-- The empty external state. -/
def w0 : World := ⟨[], [], [], [], 0⟩

/-- The unit discovered at `lambdas/f1`. -/
def u1 : FunctionUnit := ⟨"f1", "lambdas", tA⟩

/-- The unit discovered at `lambdas/f2`. -/
def u2 : FunctionUnit := ⟨"f2", "lambdas", tA⟩

/-- Latest ledger record of `f1` in `dev`, fingerprinting `tA`. -/
def rA : DeploymentRecord := mkRecord cfgF 0 "f1" (calculate_hash tA)

/-- State after `tA` was deployed for `f1`: its record and artifact exist. -/
def wA : World := ⟨[rA], [⟨"f1", calculate_hash tA⟩], [], [], 1⟩

/-- Three successive deploys of fingerprints `[10]`, `[20]`, `[30]` for
`f1` in `dev` (ledger most recent first, all three artifacts stored). -/
def wABC : World :=
  ⟨[mkRecord cfgF 2 "f1" [30], mkRecord cfgF 1 "f1" [20], mkRecord cfgF 0 "f1" [10]],
   [⟨"f1", [10]⟩, ⟨"f1", [20]⟩, ⟨"f1", [30]⟩], [], [], 3⟩

/-! ## C3 -/

/-- **C3**: the claim says the fingerprint visits files in a fixed
deterministic order independent of the filesystem's enumeration order, so
two trees with identical file names and identical byte contents always
yield the identical fingerprint.  The code sorts the files of each
directory (`sorted(files)`, line 200) but walks subdirectories in
filesystem enumeration order (`os.walk`'s `dirs` list is never sorted), so
two trees holding the same named subdirectories with the same files and
bytes — merely enumerated in a different order — hash differently.  The
two trees below are permutations of one another's directory lists yet get
different digests. -/
theorem C3_hash_depends_on_enumeration_order :
    calculate_hash
        (.node [] [("d1", .node [⟨"a.py", [0]⟩] []), ("d2", .node [⟨"b.py", [1]⟩] [])])
      ≠ calculate_hash
        (.node [] [("d2", .node [⟨"b.py", [1]⟩] []), ("d1", .node [⟨"a.py", [0]⟩] [])])
    ∧ [("d1", FSTree.node [⟨"a.py", [0]⟩] []), ("d2", FSTree.node [⟨"b.py", [1]⟩] [])].Perm
        [("d2", FSTree.node [⟨"b.py", [1]⟩] []), ("d1", FSTree.node [⟨"a.py", [0]⟩] [])] :=
  ⟨by decide, List.Perm.swap _ _ _⟩

/-! ## C10 -/

/-- **C10**: the fingerprint folds only file byte contents, never file
names: two distinct trees whose files have different names (here also a
different number of files) but whose concatenated byte streams coincide get
the identical fingerprint; likewise two trees with different file
boundaries over the same bytes. -/
theorem C10_fingerprint_ignores_names :
    (FSTree.node [⟨"a.py", []⟩, ⟨"b.py", []⟩] [] ≠ FSTree.node [⟨"c.py", []⟩] []
      ∧ calculate_hash (.node [⟨"a.py", []⟩, ⟨"b.py", []⟩] [])
          = calculate_hash (.node [⟨"c.py", []⟩] []))
    ∧ calculate_hash (.node [⟨"x.py", [1, 2]⟩] [])
        = calculate_hash (.node [⟨"u.py", [1]⟩, ⟨"v.py", [2]⟩] []) := by
  refine ⟨⟨fun h => ?_, by decide⟩, by decide⟩
  injection h with h1 h2
  exact absurd h1 (by decide)

/-! ## C6 -/

/-- **C6**: for a unit whose source tree is unchanged since its latest
recorded deployment (the ledger's latest fingerprint equals the current
hash), the forward-deploy decision yields Skip — result `True`, state
untouched, and a trace holding only the latest-fingerprint query: zero
uploads, zero target updates, zero ledger appends — and running it a second
time yields exactly the same Skip again. -/
theorem C6_second_run_skips (cfg : Config) (o : Oracle) (w : World)
    (u : FunctionUnit) (hmode : cfg.is_rollback = false)
    (hq : o.queryLatestOk = true)
    (hsame : get_existing_hash o w u.name cfg.environment
      = some (calculate_hash u.tree)) :
    process_lambda cfg o w u
      = (true, w, [.queryLatest u.name cfg.environment true])
    ∧ process_lambda cfg o (process_lambda cfg o w u).2.1 u
      = (true, w, [.queryLatest u.name cfg.environment true]) := by
  have h1 := process_lambda_forward_skip cfg o w u hmode hsame
  rw [hq] at h1
  refine ⟨h1, ?_⟩
  rw [h1]
  exact h1

/-- Witness for C6: with `tA` already the latest recorded deployment of
`f1`, both consecutive runs skip. -/
theorem C6_second_run_skips_witness :
    process_lambda cfgF allOk wA u1 = (true, wA, [.queryLatest "f1" "dev" true])
    ∧ process_lambda cfgF allOk (process_lambda cfgF allOk wA u1).2.1 u1
      = (true, wA, [.queryLatest "f1" "dev" true]) :=
  C6_second_run_skips cfgF allOk wA u1 rfl rfl (by rfl)

/-! ## C9 -/

/-- **C9**: in rollback mode with a non-empty allow-list, a discovered unit
whose name is absent from the list is skipped before any external call: no
ledger query or mutation, no target update (empty trace, state unchanged),
result `True`, and in the fan-out it is counted as a success, not a
failure. -/
theorem C9_allowlist_absent_skips (cfg : Config) (o : Oracle) (w : World)
    (u : FunctionUnit) (hrb : cfg.is_rollback = true)
    (hne : cfg.specific_lambdas ≠ []) (habs : u.name ∉ cfg.specific_lambdas) :
    process_lambda cfg o w u = (true, w, [])
    ∧ ∀ rest, deploy_all cfg w ((u, o) :: rest)
        = ((deploy_all cfg w rest).1 + 1, (deploy_all cfg w rest).2.1,
           (deploy_all cfg w rest).2.2) := by
  have h1 := process_lambda_allowlist_skip cfg o w u hrb hne habs
  refine ⟨h1, fun rest => ?_⟩
  simp [deploy_all, h1]

/-- Witness for C9: under rollback with allow-list `{"f1"}`, the discovered
function `f2` is skipped and counted as a success. -/
theorem C9_allowlist_absent_skips_witness :
    process_lambda cfgRL allOk w0 u2 = (true, w0, [])
    ∧ deploy_all cfgRL w0 [(u2, allOk)]
        = ((deploy_all cfgRL w0 []).1 + 1, (deploy_all cfgRL w0 []).2.1,
           (deploy_all cfgRL w0 []).2.2) :=
  ⟨(C9_allowlist_absent_skips cfgRL allOk w0 u2 rfl (by decide) (by decide)).1,
   (C9_allowlist_absent_skips cfgRL allOk w0 u2 rfl (by decide) (by decide)).2 []⟩

end DeployLambdas

namespace DeployLambdas

/-! ## C4 -/

theorem lookupTarget_set (w : World) (ts : List (String × S3Key)) (n : String)
    (k : S3Key) : lookupTarget { w with targets := setTarget ts n k } n = some k := by
  simp [lookupTarget, setTarget]

/-- **C4**: under rollback (with the unit eligible), when the ledger holds
at least two records for `(functionName, environment)` the unit's target is
repointed at the artifact of the second-most-recent record — after deploys
of fingerprints A, B, C the update goes to B's artifact, not C's; with
fewer than two records the unit fails (`NoRollbackTarget`): result `False`,
state untouched, no target update issued. -/
theorem C4_rollback_to_previous (cfg : Config) (o : Oracle) (w : World)
    (u : FunctionUnit) (hrb : cfg.is_rollback = true)
    (helig : cfg.specific_lambdas = [] ∨ u.name ∈ cfg.specific_lambdas)
    (hq : o.queryPrevOk = true) :
    (∀ rB, ((ledgerFor w u.name cfg.environment).take 2)[1]? = some rB →
        process_lambda cfg o w u
          = (o.updateOk,
             (update_lambda_function cfg o w u.name ⟨u.name, rB.code_hash⟩).2,
             [.queryPrevious u.name cfg.environment true,
              .updateTarget (u.name ++ "_" ++ cfg.environment)
                ⟨u.name, rB.code_hash⟩ o.updateOk])
        ∧ (o.updateOk = true →
            lookupTarget (process_lambda cfg o w u).2.1
                (u.name ++ "_" ++ cfg.environment)
              = some ⟨u.name, rB.code_hash⟩))
    ∧ ((ledgerFor w u.name cfg.environment).length < 2 →
        process_lambda cfg o w u
          = (false, w, [.queryPrevious u.name cfg.environment true])) := by
  constructor
  · intro rB hrB
    have hprev : get_previous_deployment o w u.name cfg.environment = some rB := by
      simp [get_previous_deployment, hq, hrB]
    have h1 := process_lambda_rollback_found cfg o w u rB hrb helig hprev
    rw [hq] at h1
    refine ⟨h1, fun hupd => ?_⟩
    rw [h1]
    simp only [update_lambda_function, hupd, if_pos]
    exact lookupTarget_set w _ _ _
  · intro hlen
    have hnone : ((ledgerFor w u.name cfg.environment).take 2)[1]? = none := by
      refine List.getElem?_eq_none ?_
      have := List.length_take 2 (ledgerFor w u.name cfg.environment)
      omega
    have hprev : get_previous_deployment o w u.name cfg.environment = none := by
      simp [get_previous_deployment, hq, hnone]
    have h1 := process_lambda_rollback_none cfg o w u hrb helig hprev
    rw [hq] at h1
    exact h1

/-- Witness for C4: with the ledger holding fingerprints `[30]`, `[20]`,
`[10]` (most recent first) for `f1`, rollback repoints `f1_dev` at the
`[20]` artifact; with an empty ledger rollback of `f1` fails. -/
theorem C4_rollback_to_previous_witness :
    (process_lambda cfgR allOk wABC u1
      = (true, (update_lambda_function cfgR allOk wABC "f1" ⟨"f1", [20]⟩).2,
         [.queryPrevious "f1" "dev" true, .updateTarget "f1_dev" ⟨"f1", [20]⟩ true])
      ∧ lookupTarget (process_lambda cfgR allOk wABC u1).2.1 "f1_dev"
          = some ⟨"f1", [20]⟩)
    ∧ process_lambda cfgR allOk w0 u1
        = (false, w0, [.queryPrevious "f1" "dev" true]) :=
  ⟨⟨((C4_rollback_to_previous cfgR allOk wABC u1 rfl (Or.inl rfl) rfl).1
        (mkRecord cfgF 1 "f1" [20]) rfl).1,
    ((C4_rollback_to_previous cfgR allOk wABC u1 rfl (Or.inl rfl) rfl).1
        (mkRecord cfgF 1 "f1" [20]) rfl).2 rfl⟩,
   (C4_rollback_to_previous cfgR allOk w0 u1 rfl (Or.inl rfl) rfl).2 (by decide)⟩

end DeployLambdas

namespace DeployLambdas

/-! ## C5 -/

theorem find_setTarget (ts : List (String × S3Key)) (n : String) (k : S3Key) :
    (setTarget ts n k).find? (fun p => p.1 == n) = some (n, k) := by
  simp [setTarget]

theorem update_lambda_function_snd_ledger (cfg : Config) (o : Oracle) (w : World)
    (fn : String) (key : S3Key) :
    (update_lambda_function cfg o w fn key).2.ledger = w.ledger := by
  cases h : o.updateOk <;> simp [update_lambda_function, h]

theorem ledger_cons_absurd {l : List DeploymentRecord} {r : DeploymentRecord}
    (h : l = r :: l) : False := by
  have h2 := congrArg List.length h
  simp at h2

/-- **C5**: whenever a unit's processing appended a ledger record, the
upload and the target-update calls both succeeded, the record's artifact is
present in the store and is exactly what the unit's target now points at,
and in the unit's call trace the upload (index 2) and the target update
(index 3) strictly precede the ledger append (index 4): the record is
appended last, so the ledger never references an artifact that was not
successfully made active. -/
theorem C5_record_appended_last (cfg : Config) (o : Oracle) (w : World)
    (u : FunctionUnit) (r : DeploymentRecord)
    (happ : (process_lambda cfg o w u).2.1.ledger = r :: w.ledger) :
    o.uploadOk = true ∧ o.updateOk = true
    ∧ (⟨u.name, r.code_hash⟩ : S3Key) ∈ (process_lambda cfg o w u).2.1.s3
    ∧ lookupTarget (process_lambda cfg o w u).2.1 (u.name ++ "_" ++ cfg.environment)
        = some ⟨u.name, r.code_hash⟩
    ∧ (process_lambda cfg o w u).2.2[2]?
        = some (.upload ⟨u.name, r.code_hash⟩ true)
    ∧ (process_lambda cfg o w u).2.2[3]?
        = some (.updateTarget (u.name ++ "_" ++ cfg.environment)
            ⟨u.name, r.code_hash⟩ true)
    ∧ (process_lambda cfg o w u).2.2[4]? = some (.ledgerAppend r true) := by
  by_cases hrb : cfg.is_rollback = true
  · by_cases hemp : cfg.specific_lambdas = []
    · cases hm : get_previous_deployment o w u.name cfg.environment with
      | some rr =>
          rw [process_lambda_rollback_found cfg o w u rr hrb (Or.inl hemp) hm] at happ
          cases hupd : o.updateOk <;> simp only [update_lambda_function, hupd,
            Bool.false_eq_true, if_false, if_true] at happ <;>
            exact (ledger_cons_absurd happ).elim
      | none =>
          rw [process_lambda_rollback_none cfg o w u hrb (Or.inl hemp) hm] at happ
          exact absurd happ (fun h => ledger_cons_absurd h)
    · by_cases hmem : u.name ∈ cfg.specific_lambdas
      · cases hm : get_previous_deployment o w u.name cfg.environment with
        | some rr =>
            rw [process_lambda_rollback_found cfg o w u rr hrb (Or.inr hmem) hm] at happ
            cases hupd : o.updateOk <;> simp only [update_lambda_function, hupd,
              Bool.false_eq_true, if_false, if_true] at happ <;>
              exact (ledger_cons_absurd happ).elim
        | none =>
            rw [process_lambda_rollback_none cfg o w u hrb (Or.inr hmem) hm] at happ
            exact absurd happ (fun h => ledger_cons_absurd h)
      · rw [process_lambda_allowlist_skip cfg o w u hrb hemp hmem] at happ
        exact absurd happ (fun h => ledger_cons_absurd h)
  · have hrb' : cfg.is_rollback = false := by
      cases h : cfg.is_rollback
      · rfl
      · exact absurd h hrb
    by_cases hd : some (calculate_hash u.tree)
        = get_existing_hash o w u.name cfg.environment
    · rw [process_lambda_forward_skip cfg o w u hrb' hd.symm] at happ
      exact absurd happ (fun h => ledger_cons_absurd h)
    · cases hzip : o.createZipOk with
      | false =>
          rw [process_lambda_forward_zipfail cfg o w u hrb' hd hzip] at happ
          exact absurd happ (fun h => ledger_cons_absurd h)
      | true =>
        cases hup : o.uploadOk with
        | false =>
            rw [process_lambda_forward_upfail cfg o w u hrb' hd hzip hup] at happ
            exact absurd happ (fun h => ledger_cons_absurd h)
        | true =>
          cases hupd : o.updateOk with
          | false =>
              rw [process_lambda_forward_updfail cfg o w u hrb' hd hzip hup hupd] at happ
              exact absurd happ (fun h => ledger_cons_absurd h)
          | true =>
            cases hrec : o.recordOk with
            | false =>
                rw [process_lambda_forward_recfail cfg o w u hrb' hd hzip hup hupd hrec]
                  at happ
                exact absurd happ (fun h => ledger_cons_absurd h)
            | true =>
                have h1 := process_lambda_forward_deploy cfg o w u hrb' hd hzip hup hupd hrec
                rw [h1] at happ
                simp only [List.cons.injEq] at happ
                have hr : r = mkRecord cfg w.clock u.name (calculate_hash u.tree) :=
                  happ.1.symm
                have hch : r.code_hash = calculate_hash u.tree := by
                  rw [hr]; rfl
                rw [h1]
                refine ⟨rfl, rfl, ?_, ?_, ?_, ?_, ?_⟩
                · rw [hch]
                  by_cases hk : (⟨u.name, calculate_hash u.tree⟩ : S3Key) ∈ w.s3
                  · simp [hk]
                  · simp [hk]
                · rw [hch]
                  simp [lookupTarget, find_setTarget]
                · rw [hch]
                  rfl
                · rw [hch]
                  rfl
                · rw [hr]
                  rfl

/-- Witness for C5: a fully successful forward deploy of `tA` for `f1`
appends exactly `rA`, and the theorem's conclusions hold at it. -/
theorem C5_record_appended_last_witness :
    allOk.uploadOk = true ∧ allOk.updateOk = true
    ∧ (⟨"f1", rA.code_hash⟩ : S3Key) ∈ (process_lambda cfgF allOk w0 u1).2.1.s3
    ∧ lookupTarget (process_lambda cfgF allOk w0 u1).2.1 "f1_dev"
        = some ⟨"f1", rA.code_hash⟩
    ∧ (process_lambda cfgF allOk w0 u1).2.2[2]?
        = some (.upload ⟨"f1", rA.code_hash⟩ true)
    ∧ (process_lambda cfgF allOk w0 u1).2.2[3]?
        = some (.updateTarget "f1_dev" ⟨"f1", rA.code_hash⟩ true)
    ∧ (process_lambda cfgF allOk w0 u1).2.2[4]? = some (.ledgerAppend rA true) :=
  C5_record_appended_last cfgF allOk w0 u1 rA (by rfl)

end DeployLambdas

namespace DeployLambdas

/-! ## C2 -/

/-- Ledger whose latest `f1`/`dev` fingerprint is `[9]`, while artifacts
for both `[9]` and `calculate_hash tA` already sit in the bucket (the
source was reverted to `tA` after `[9]` was deployed). -/
def wC2 : World :=
  ⟨[mkRecord cfgF 0 "f1" [9]], [⟨"f1", calculate_hash tA⟩, ⟨"f1", [9]⟩], [], [], 1⟩

/-- **C2** (counterexample): the claim says an upload never happens when a
blob for `(functionName, fingerprint)` is already present.  `upload_to_s3`
performs an unconditional `upload_file` (no existence check), and
`process_lambda` gates it only on the fingerprint differing from the
*latest ledger fingerprint*: here the artifact for `tA`'s fingerprint is
already stored, yet because the latest ledger entry is `[9]` the unit
uploads (and S3 overwrites) that existing key. -/
theorem C2_counterexample_reupload :
    (⟨"f1", calculate_hash tA⟩ : S3Key) ∈ wC2.s3
    ∧ Effect.upload ⟨"f1", calculate_hash tA⟩ true
        ∈ (process_lambda cfgF allOk wC2 u1).2.2 := by
  decide

/-- **C2** (amended): upload is not conditional on absence — whenever the
computed fingerprint differs from the latest ledger fingerprint and the
upload call succeeds, the upload of `{functionName}/{fingerprint}/function.zip`
happens unconditionally, present or not.  What does hold: re-uploading an
existing key does not error (S3 `PUT` replaces), leaves the bucket's key
set unchanged, and never duplicates a key. -/
theorem C2_amended_unconditional_upload (cfg : Config) (o : Oracle) (w : World)
    (u : FunctionUnit) (hmode : cfg.is_rollback = false)
    (hdiff : some (calculate_hash u.tree)
      ≠ get_existing_hash o w u.name cfg.environment)
    (hzip : o.createZipOk = true) (hup : o.uploadOk = true) :
    Effect.upload ⟨u.name, calculate_hash u.tree⟩ true
        ∈ (process_lambda cfg o w u).2.2
    ∧ ((⟨u.name, calculate_hash u.tree⟩ : S3Key) ∈ w.s3 →
        (process_lambda cfg o w u).2.1.s3 = w.s3)
    ∧ (w.s3.Nodup → (process_lambda cfg o w u).2.1.s3.Nodup) := by
  cases hupd : o.updateOk with
  | false =>
      rw [process_lambda_forward_updfail cfg o w u hmode hdiff hzip hup hupd]
      refine ⟨by simp, fun hk => by simp [hk], fun hnd => ?_⟩
      by_cases hk : (⟨u.name, calculate_hash u.tree⟩ : S3Key) ∈ w.s3
      · simp [hk, hnd]
      · simp [hk, hnd]
  | true =>
    cases hrec : o.recordOk with
    | false =>
        rw [process_lambda_forward_recfail cfg o w u hmode hdiff hzip hup hupd hrec]
        refine ⟨by simp, fun hk => by simp [hk], fun hnd => ?_⟩
        by_cases hk : (⟨u.name, calculate_hash u.tree⟩ : S3Key) ∈ w.s3
        · simp [hk, hnd]
        · simp [hk, hnd]
    | true =>
        rw [process_lambda_forward_deploy cfg o w u hmode hdiff hzip hup hupd hrec]
        refine ⟨by simp, fun hk => by simp [hk], fun hnd => ?_⟩
        by_cases hk : (⟨u.name, calculate_hash u.tree⟩ : S3Key) ∈ w.s3
        · simp [hk, hnd]
        · simp [hk, hnd]

/-- Witness for the amended C2 at the reverted-source state: the upload of
the already-present key happens, the key set is unchanged, and no key is
duplicated. -/
theorem C2_amended_unconditional_upload_witness :
    Effect.upload ⟨"f1", calculate_hash tA⟩ true
        ∈ (process_lambda cfgF allOk wC2 u1).2.2
    ∧ (process_lambda cfgF allOk wC2 u1).2.1.s3 = wC2.s3
    ∧ (process_lambda cfgF allOk wC2 u1).2.1.s3.Nodup :=
  ⟨(C2_amended_unconditional_upload cfgF allOk wC2 u1 rfl (by decide) rfl rfl).1,
   (C2_amended_unconditional_upload cfgF allOk wC2 u1 rfl (by decide) rfl rfl).2.1
     (by decide),
   (C2_amended_unconditional_upload cfgF allOk wC2 u1 rfl (by decide) rfl rfl).2.2
     (by decide)⟩

/-! ## C8 -/

/-- Oracle whose S3 upload raises a `ClientError`. -/
def oUpFail : Oracle := ⟨true, true, true, false, true, true, true⟩

/-- Oracle whose DynamoDB `put_item` raises a `ClientError`. -/
def oRecFail : Oracle := ⟨true, true, true, true, true, false, true⟩

/-- **C8** (counterexample): the claim says the temporary archive is
discarded on every exit path.  `os.remove` is only reached after upload,
target update and ledger append all succeed (lines 418-431); on a failed
upload the unit returns early and `/tmp/f1.zip` is still there. -/
theorem C8_counterexample_zip_left_behind :
    (process_lambda cfgF oUpFail w0 u1).1 = false
    ∧ "/tmp/f1.zip" ∈ (process_lambda cfgF oUpFail w0 u1).2.1.tmp := by
  decide

/-- **C8** (amended): the temporary archive is removed only at the end of
the fully successful deploy path (and even then best-effort, with a failed
removal merely logged); on each failing exit path — upload failure, target
update failure, or ledger append failure — the unit returns early and the
archive is left behind. -/
theorem C8_amended_cleanup_only_on_success (cfg : Config) (o : Oracle)
    (w : World) (u : FunctionUnit) (hmode : cfg.is_rollback = false)
    (hdiff : some (calculate_hash u.tree)
      ≠ get_existing_hash o w u.name cfg.environment)
    (hzip : o.createZipOk = true) :
    (o.uploadOk = false →
      (process_lambda cfg o w u).1 = false
      ∧ ("/tmp/" ++ u.name ++ ".zip") ∈ (process_lambda cfg o w u).2.1.tmp)
    ∧ (o.uploadOk = true → o.updateOk = false →
      (process_lambda cfg o w u).1 = false
      ∧ ("/tmp/" ++ u.name ++ ".zip") ∈ (process_lambda cfg o w u).2.1.tmp)
    ∧ (o.uploadOk = true → o.updateOk = true → o.recordOk = false →
      (process_lambda cfg o w u).1 = false
      ∧ ("/tmp/" ++ u.name ++ ".zip") ∈ (process_lambda cfg o w u).2.1.tmp)
    ∧ (o.uploadOk = true → o.updateOk = true → o.recordOk = true →
        o.removeOk = true → (process_lambda cfg o w u).2.1.tmp = w.tmp) := by
  refine ⟨fun hup => ?_, fun hup hupd => ?_, fun hup hupd hrec => ?_,
    fun hup hupd hrec hrem => ?_⟩
  · rw [process_lambda_forward_upfail cfg o w u hmode hdiff hzip hup]
    exact ⟨rfl, by simp⟩
  · rw [process_lambda_forward_updfail cfg o w u hmode hdiff hzip hup hupd]
    exact ⟨rfl, by simp⟩
  · rw [process_lambda_forward_recfail cfg o w u hmode hdiff hzip hup hupd hrec]
    exact ⟨rfl, by simp⟩
  · rw [process_lambda_forward_deploy cfg o w u hmode hdiff hzip hup hupd hrec]
    simp [hrem]

/-- Witness for the amended C8: `f1`'s archive survives a failed upload and
is gone after a fully successful deploy. -/
theorem C8_amended_cleanup_witness :
    ((process_lambda cfgF oUpFail w0 u1).1 = false
      ∧ ("/tmp/" ++ "f1" ++ ".zip") ∈ (process_lambda cfgF oUpFail w0 u1).2.1.tmp)
    ∧ (process_lambda cfgF allOk w0 u1).2.1.tmp = w0.tmp :=
  ⟨(C8_amended_cleanup_only_on_success cfgF oUpFail w0 u1 rfl (by decide) rfl).1 rfl,
   (C8_amended_cleanup_only_on_success cfgF allOk w0 u1 rfl (by decide) rfl).2.2.2
     rfl rfl rfl rfl⟩

end DeployLambdas

namespace DeployLambdas

/-! ## C7 -/

/-- Oracle whose latest-fingerprint DynamoDB query raises a `ClientError`. -/
def oQFail : Oracle := ⟨false, true, true, true, true, true, true⟩

theorem deploy_all_counts_total (cfg : Config) (w : World)
    (units : List (FunctionUnit × Oracle)) :
    (deploy_all cfg w units).1 + (deploy_all cfg w units).2.1 = units.length := by
  induction units generalizing w with
  | nil => simp [deploy_all]
  | cons p rest ih =>
      obtain ⟨u, o⟩ := p
      have h := ih (process_lambda cfg o w u).2.1
      simp only [deploy_all]
      split <;> simp <;> omega

/-- **C7** (counterexample): the claim says a failed latest-fingerprint
query (a `LedgerFailure`) fails the unit and must not make it proceed as
if no prior deployment existed.  `get_existing_hash` catches the
`ClientError` and returns `''` (lines 365-367), which never equals a
computed hash, so the unit — whose prior deployment of the very same tree
exists and would have made it skip — instead runs a full redeploy and
reports success. -/
theorem C7_counterexample_query_failure_redeploys :
    get_existing_hash allOk wA "f1" "dev" = some (calculate_hash tA)
    ∧ (process_lambda cfgF oQFail wA u1).1 = true
    ∧ Effect.upload ⟨"f1", calculate_hash tA⟩ true
        ∈ (process_lambda cfgF oQFail wA u1).2.2 := by
  decide

/-- **C7** (amended): an external-call error on the ledger *append* fails
exactly that unit; per-unit failures never abort siblings (every unit is
counted, successes plus failures always totalling the number of units);
but an external-call error on the latest-fingerprint *query* does not fail
the unit — it is treated as "no prior deployment" and the unit proceeds
with a full redeploy. -/
theorem C7_amended_ledger_failure_handling :
    (∀ (cfg : Config) (o : Oracle) (w : World) (u : FunctionUnit),
      cfg.is_rollback = false →
      some (calculate_hash u.tree) ≠ get_existing_hash o w u.name cfg.environment →
      o.createZipOk = true → o.uploadOk = true → o.updateOk = true →
      o.recordOk = false → (process_lambda cfg o w u).1 = false)
    ∧ (∀ (cfg : Config) (o : Oracle) (w : World) (u : FunctionUnit),
      cfg.is_rollback = false → o.queryLatestOk = false →
      o.createZipOk = true → o.uploadOk = true → o.updateOk = true →
      o.recordOk = true →
      (process_lambda cfg o w u).1 = true
      ∧ Effect.upload ⟨u.name, calculate_hash u.tree⟩ true
          ∈ (process_lambda cfg o w u).2.2)
    ∧ (∀ (cfg : Config) (w : World) (units : List (FunctionUnit × Oracle)),
      (deploy_all cfg w units).1 + (deploy_all cfg w units).2.1 = units.length) := by
  refine ⟨fun cfg o w u hmode hdiff hzip hup hupd hrec => ?_,
    fun cfg o w u hmode hq hzip hup hupd hrec => ?_,
    deploy_all_counts_total⟩
  · rw [process_lambda_forward_recfail cfg o w u hmode hdiff hzip hup hupd hrec]
  · have hdiff : some (calculate_hash u.tree)
        ≠ get_existing_hash o w u.name cfg.environment := by
      simp [get_existing_hash, hq]
    rw [process_lambda_forward_deploy cfg o w u hmode hdiff hzip hup hupd hrec]
    exact ⟨rfl, by simp⟩

/-- Witness for the amended C7: a failed append fails `f1`; a failed
latest-fingerprint query on the already-deployed `f1` still reports
success; one unit yields counts totalling one. -/
theorem C7_amended_ledger_failure_witness :
    (process_lambda cfgF oRecFail w0 u1).1 = false
    ∧ (process_lambda cfgF oQFail wA u1).1 = true
    ∧ (deploy_all cfgF w0 [(u1, allOk)]).1
        + (deploy_all cfgF w0 [(u1, allOk)]).2.1 = 1 :=
  ⟨C7_amended_ledger_failure_handling.1 cfgF oRecFail w0 u1 rfl (by decide)
     rfl rfl rfl rfl,
   (C7_amended_ledger_failure_handling.2.1 cfgF oQFail wA u1 rfl rfl
     rfl rfl rfl rfl).1,
   C7_amended_ledger_failure_handling.2.2 cfgF w0 [(u1, allOk)]⟩

/-! ## C1 -/

/-- Valid rollback run configuration for `dev`. -/
def envRB : OSEnv :=
  ⟨[("IS_ROLLBACK", "true"), ("ENVIRONMENT", "dev"), ("S3_BUCKET_DEV", "bucket")]⟩

/-- Deployer construction with every client healthy. -/
def ioOk : InitOracle := ⟨true, true, true, .ok⟩

/-- **C1** (counterexample): the claim says every run in which at least one
unit fails exits non-zero.  `deploy_all` only logs the failure count
(lines 471-474) and `main` calls `sys.exit` solely from its exception
handlers, so a run whose single unit fails (rollback of `f1` with an empty
ledger) still exits 0 — here with success count 0 and failure count 1. -/
theorem C1_counterexample_failed_unit_exits_zero :
    mainRun envRB ioOk [(u1, allOk)] w0 = (0, 0, 1) := by
  rfl

/-- **C1** (amended): the three initialization failure classes exit with
three distinct non-zero codes — 1 for `ConfigurationError`, 2 for
`DeploymentError`, 3 for an unexpected exception — and once initialization
succeeds the process exits 0 regardless of the units' outcomes: skipped
units do not count as failures, but failed units do not make the exit
non-zero either (the exit code is independent of the unit list). -/
theorem C1_amended_exit_codes (e : OSEnv) (io : InitOracle)
    (units : List (FunctionUnit × Oracle)) (w : World) :
    ((∃ cfg, initDeployer e io = .ok cfg) → (mainRun e io units w).1 = 0)
    ∧ (initDeployer e io = .configErr → mainRun e io units w = (1, 0, 0))
    ∧ (initDeployer e io = .clientErr → mainRun e io units w = (2, 0, 0))
    ∧ (initDeployer e io = .unexpectedErr → mainRun e io units w = (3, 0, 0))
    ∧ (mainRun e io units w).1 = (mainRun e io [] w).1 := by
  refine ⟨fun h => ?_, fun h => ?_, fun h => ?_, fun h => ?_, ?_⟩
  · obtain ⟨cfg, hcfg⟩ := h
    simp [mainRun, hcfg]
  · simp [mainRun, h]
  · simp [mainRun, h]
  · simp [mainRun, h]
  · cases h : initDeployer e io <;> simp [mainRun, h]

/-- Witness for the amended C1: the valid rollback configuration with a
failing unit exits 0; the empty environment (missing `S3_BUCKET_DEV`)
exits 1. -/
theorem C1_amended_exit_codes_witness :
    (mainRun envRB ioOk [(u1, allOk)] w0).1 = 0
    ∧ mainRun ⟨[]⟩ ioOk [] w0 = (1, 0, 0) :=
  ⟨(C1_amended_exit_codes envRB ioOk [(u1, allOk)] w0).1
     ⟨mkConfig envRB "dev" "bucket" true [], by rfl⟩,
   (C1_amended_exit_codes ⟨[]⟩ ioOk [] w0).2.1 (by rfl)⟩

end DeployLambdas
